import Mathlib

/-!
Verification of the wire protocol, endpoint registry, dispatch and
connection-handling loop of the bluetooth RPC server
(src/bluetooth_server/server.py), as a shallow embedding.

Bytes are modelled as natural numbers below 256, byte strings as lists of
bytes, and Python strings as lists of Unicode code points.  Python
exceptions are modelled by an explicit error type: a function that can
raise returns an Except value.
-/

/-- A byte string (Python bytes): a list of byte values. -/
abbrev ByteL := List Nat

/-- A Python str: a list of Unicode code points. -/
abbrev PyStr := List Nat

/-- The exceptions that the functions of server.py can raise, plus the two
exception classes that the specification names but that do not exist
anywhere in the source (framingError, unsupportedResponseType): they are
present only so that statements can compare what the code raises against
what the specification claims it raises. -/
inductive PyErr where
  /-- struct.error: struct.unpack received a buffer of the wrong size, or
  struct.pack received an out-of-range value. -/
  | structError
  /-- UnicodeDecodeError from bytes.decode(). -/
  | unicodeDecodeError
  /-- TypeError, e.g. len() of an object with no len, or calling a function
  with an unexpected keyword argument. -/
  | typeError
  /-- EndpointExistsError, raised by register_endpoint on a duplicate name. -/
  | endpointExists
  /-- The FramingError class named by the specification.  No such class is
  defined or raised anywhere in server.py. -/
  | framingError
  /-- The UnsupportedResponseTypeError class named by the specification.
  No such class is defined or raised anywhere in server.py. -/
  | unsupportedResponseType
  /-- Marker for the source blocking forever: recv at end of stream keeps
  returning an empty bytes object and the terminator loop never ends. -/
  | eofBlocked
deriving DecidableEq, Repr

/-- struct.pack of one unsigned 32-bit value in native (little-endian)
byte order, as used by both _send_client_response and the length part of
the endpoint frame. -/
def packU32 (n : Nat) : ByteL :=
  [n % 256, n / 256 % 256, n / 65536 % 256, n / 16777216 % 256]

/-- struct.unpack of the format I: requires a buffer of exactly 4 bytes,
otherwise struct raises (modelled by none). -/
def unpackU32 : ByteL → Option Nat
  | [a, b, c, d] => some (a + 256 * b + 65536 * c + 16777216 * d)
  | _ => none

/-- The loop of _recv_client_data: recv one byte at a time, accumulating
until a NUL byte (0x00) arrives; the NUL is consumed and not returned.
The input is the remaining bytes of the stream; the result pairs the
payload with the bytes that follow the terminator (the stream position is
then just past the terminator).  When the stream runs out before a NUL the
source never leaves the loop, modelled by none. -/
def recvClientData : ByteL → Option (ByteL × ByteL)
  | [] => none
  | b :: rest =>
    if b = 0 then some ([], rest)
    else
      match recvClientData rest with
      | some (d, r) => some (b :: d, r)
      | none => none

/-- The body of _send_client_response: a None return value becomes empty
bytes, then struct.pack packs a 4-byte unsigned length followed by the
payload bytes, with no terminator.  struct.pack raises struct.error when
the length does not fit in 32 bits.  The result is the byte string that is
sent on the socket. -/
def sendClientResponse (returnData : Option ByteL) : Except PyErr ByteL :=
  let rd := match returnData with
    | none => []
    | some b => b
  if rd.length < 4294967296 then .ok (packU32 rd.length ++ rd)
  else .error .structError

/-- UTF-8 encoding of one code point (the encoding used by str.encode). -/
def utf8EncodeChar (c : Nat) : ByteL :=
  if c < 128 then [c]
  else if c < 2048 then [192 + c / 64, 128 + c % 64]
  else if c < 65536 then [224 + c / 4096, 128 + c / 64 % 64, 128 + c % 64]
  else [240 + c / 262144, 128 + c / 4096 % 64, 128 + c / 64 % 64, 128 + c % 64]

/-- UTF-8 encoding of a string (str.encode). -/
def utf8Encode (s : PyStr) : ByteL :=
  (s.map utf8EncodeChar).flatten

/-- Is the byte a UTF-8 continuation byte (0x80 to 0xBF)? -/
def isCont (b : Nat) : Bool :=
  128 ≤ b && b < 192

/-- Strict decoding of one UTF-8 encoded code point from the head of a
byte string, as performed by bytes.decode(): rejects stray continuation
bytes, overlong forms, surrogate code points and values above 0x10FFFF.
Returns the code point and the remaining bytes. -/
def utf8DecodeOne : ByteL → Option (Nat × ByteL)
  | [] => none
  | b :: rest =>
    if b < 128 then some (b, rest)
    else if b < 194 then none
    else if b < 224 then
      match rest with
      | b2 :: r => if isCont b2 then some ((b - 192) * 64 + (b2 - 128), r) else none
      | _ => none
    else if b < 240 then
      match rest with
      | b2 :: b3 :: r =>
        if isCont b2 && isCont b3 then
          let c := (b - 224) * 4096 + (b2 - 128) * 64 + (b3 - 128)
          if 2048 ≤ c && ¬(55296 ≤ c && c < 57344) then some (c, r) else none
        else none
      | _ => none
    else if b < 245 then
      match rest with
      | b2 :: b3 :: b4 :: r =>
        if isCont b2 && isCont b3 && isCont b4 then
          let c := (b - 240) * 262144 + (b2 - 128) * 4096 + (b3 - 128) * 64 + (b4 - 128)
          if 65536 ≤ c && c < 1114112 then some (c, r) else none
        else none
      | _ => none
    else none

/-- The decoding loop: one code point at a time until the bytes run out.
The fuel argument only bounds the number of iterations so the recursion is
structural; every iteration consumes at least one byte, so fuel equal to
the byte count never runs out. -/
def utf8DecodeLoop : Nat → ByteL → Option PyStr
  | _, [] => some []
  | 0, _ :: _ => none
  | fuel + 1, b :: rest =>
    match utf8DecodeOne (b :: rest) with
    | none => none
    | some (c, r) => Option.map (fun t => c :: t) (utf8DecodeLoop fuel r)

/-- Strict UTF-8 decoding of a whole byte string (bytes.decode()); none
models UnicodeDecodeError. -/
def utf8Decode (l : ByteL) : Option PyStr :=
  utf8DecodeLoop l.length l

/-- The body of _recv_client_endpoint: recv(4) yields up to 4 bytes (fewer
only when the stream has fewer left), struct.unpack interprets them as an
unsigned 32-bit length (raising struct.error unless exactly 4 bytes
arrived), recv(length) yields up to that many bytes, and bytes.decode()
decodes whatever arrived as UTF-8.  Note: when the stream ends before the
declared length is satisfied, recv simply returns the shorter byte string
and decode is applied to it, so a truncated name is accepted silently.
The result pairs the decoded name with the remaining stream bytes. -/
def recvClientEndpoint (s : ByteL) : Except PyErr (PyStr × ByteL) :=
  match unpackU32 (s.take 4) with
  | none => .error .structError
  | some len =>
    match utf8Decode ((s.drop 4).take len) with
    | none => .error .unicodeDecodeError
    | some name => .ok (name, (s.drop 4).drop len)

/-- One hexadecimal digit as a lowercase character code, as produced by
the \uXXXX escapes of json.dumps. -/
def hexDigit (n : Nat) : Nat :=
  if n < 10 then 48 + n else 87 + n

/-- Four hexadecimal digits of a value below 0x10000. -/
def hex4 (n : Nat) : PyStr :=
  [hexDigit (n / 4096 % 16), hexDigit (n / 256 % 16), hexDigit (n / 16 % 16),
   hexDigit (n % 16)]

/-- The \uXXXX escape of json.dumps (default ensure ascii mode); code
points above 0xFFFF become a surrogate pair of two escapes. -/
def uEscape (c : Nat) : PyStr :=
  if c < 65536 then [92, 117] ++ hex4 c
  else
    [92, 117] ++ hex4 (55296 + (c - 65536) / 1024) ++
    [92, 117] ++ hex4 (56320 + (c - 65536) % 1024)

/-- How json.dumps escapes one character inside a string literal: quote
and backslash get a backslash escape, the short control escapes are used
for backspace, tab, newline, form feed and carriage return, other control
characters and all non-ascii characters get \uXXXX escapes, and every
remaining character stands for itself. -/
def jsonEscapeChar (c : Nat) : PyStr :=
  if c = 34 then [92, 34]
  else if c = 92 then [92, 92]
  else if c = 8 then [92, 98]
  else if c = 9 then [92, 116]
  else if c = 10 then [92, 110]
  else if c = 12 then [92, 102]
  else if c = 13 then [92, 114]
  else if c < 32 || 127 ≤ c then uEscape c
  else [c]

/-- A JSON string literal: quote, escaped characters, quote. -/
def jsonQuote (s : PyStr) : PyStr :=
  [34] ++ (s.map jsonEscapeChar).flatten ++ [34]

/-- Joining with a separator, as json.dumps does with comma-space. -/
def joinSep (sep : PyStr) : List PyStr → PyStr
  | [] => []
  | [x] => x
  | x :: xs => x ++ sep ++ joinSep sep xs

/-- json.dumps of a flat dict whose keys and values are strings (the only
shape the server ever serializes, namely the error dict built in
_run_endpoint): braces around comma-space separated quoted key, colon,
space, quoted value pairs. -/
def jsonDumps (d : List (PyStr × PyStr)) : PyStr :=
  [123] ++ joinSep [44, 32] (d.map fun kv => jsonQuote kv.1 ++ [58, 32] ++ jsonQuote kv.2) ++ [125]

/-- The exact types a handler return value can have on the paths of
_run_endpoint: bytes, str and dict are normalized, None becomes empty
bytes, and any other type reaches _send_client_response unconverted. -/
inductive PyValue where
  /-- A bytes object. -/
  | bytes (b : ByteL)
  /-- A str object. -/
  | str (s : PyStr)
  /-- A dict with string keys and string values (the shape the server
  builds and serializes). -/
  | dict (d : List (PyStr × PyStr))
  /-- The None object. -/
  | none
  /-- A value of any other type; modelled as one with no len(), such as an
  int, so len() in _send_client_response raises TypeError. -/
  | other

/-- The outcome of calling a handler: a returned value or a raised
exception carrying its str(e) message. -/
inductive HandlerResult where
  /-- The call returned the value. -/
  | ret (v : PyValue)
  /-- The call raised an exception whose str() is the message. -/
  | raise (m : PyStr)

/-- A Python callable as the registry stores it: which keyword parameter
names its signature accepts, and what the call does with the payload
bound to the data parameter. -/
structure PyCallable where
  /-- Does the signature accept a keyword argument of this name? -/
  acceptsKw : PyStr → Bool
  /-- The behaviour of the call once the payload is bound. -/
  fn : ByteL → HandlerResult

/-- The code points of the name data, the keyword used at the call site
self._end_points[end_point](data=data). -/
def dataKw : PyStr := [100, 97, 116, 97]

/-- The message of the TypeError Python raises when a callable is invoked
with a keyword argument its signature does not accept: got an unexpected
keyword argument followed by the quoted name. -/
def unexpectedKwMsg (kw : PyStr) : PyStr :=
  [103, 111, 116, 32, 97, 110, 32, 117, 110, 101, 120, 112, 101, 99, 116,
   101, 100, 32, 107, 101, 121, 119, 111, 114, 100, 32, 97, 114, 103, 117,
   109, 101, 110, 116, 32, 39] ++ kw ++ [39]

/-- Invoking a callable with a single keyword argument, as the dispatch
site does: when the signature does not accept the keyword, Python raises
TypeError at the call itself (inside the try block of _run_endpoint). -/
def callWithKw (c : PyCallable) (kw : PyStr) (arg : ByteL) : HandlerResult :=
  if c.acceptsKw kw then c.fn arg
  else .raise (unexpectedKwMsg kw)

/-- The endpoint registry self._end_points: an association list from
endpoint name to callable (insertion order, no duplicate keys ever arise
because register_endpoint refuses duplicates). -/
abbrev Registry := List (PyStr × PyCallable)

/-- Dict lookup self._end_points[name]. -/
def lookupEndpoint : Registry → PyStr → Option PyCallable
  | [], _ => none
  | (k, v) :: r, n => if k = n then some v else lookupEndpoint r n

/-- The key set of the registry, for the name in self._end_points test. -/
def registryKeys (reg : Registry) : List PyStr :=
  reg.map Prod.fst

/-- register_endpoint: raises EndpointExistsError when the name is already
present (before any mutation, so the registry is untouched), otherwise
inserts the single new entry. -/
def registerEndpoint (reg : Registry) (n : PyStr) (cb : PyCallable) : Except PyErr Registry :=
  if n ∈ registryKeys reg then .error .endpointExists
  else .ok (reg ++ [(n, cb)])

/-- The registry as it stands after a register_endpoint call: the new
mapping on success, the old registry when the call raised. -/
def registryAfterRegister (reg : Registry) (n : PyStr) (cb : PyCallable) : Registry :=
  match registerEndpoint reg n cb with
  | .ok r => r
  | .error _ => reg

/-- The code points of the key error in the dict {error: str(e)} that
_run_endpoint builds when the handler raises. -/
def errKey : PyStr := [101, 114, 114, 111, 114]

/-- str() of the KeyError raised by self._end_points[end_point] on a
missing key: the quoted name. -/
def keyErrorMsg (name : PyStr) : PyStr :=
  [39] ++ name ++ [39]

/-- The try block of _run_endpoint: look the handler up, call it with the
payload as the single keyword argument data, and on any exception replace
the return value by the dict {error: str(e)}. -/
def dispatchValue (reg : Registry) (name : PyStr) (data : ByteL) : PyValue :=
  match lookupEndpoint reg name with
  | none => .dict [(errKey, keyErrorMsg name)]
  | some h =>
    match callWithKw h dataKw data with
    | .ret v => v
    | .raise m => .dict [(errKey, m)]

/-- The normalization chain after the try block of _run_endpoint followed
by _send_client_response: None becomes empty bytes, a str is UTF-8
encoded, a dict is serialized with json.dumps and UTF-8 encoded, bytes
pass through; any other value reaches len() inside _send_client_response,
which raises TypeError, uncaught by _run_endpoint. -/
def normalizeAndSend (v : PyValue) : Except PyErr ByteL :=
  match v with
  | .none => sendClientResponse (some [])
  | .str s => sendClientResponse (some (utf8Encode s))
  | .dict d => sendClientResponse (some (utf8Encode (jsonDumps d)))
  | .bytes b => sendClientResponse (some b)
  | .other => .error .typeError

/-- _run_endpoint as a whole: dispatch, then normalize and send.  The
result is the byte string written to the client, or the exception that
escapes _run_endpoint. -/
def runEndpoint (reg : Registry) (name : PyStr) (data : ByteL) : Except PyErr ByteL :=
  normalizeAndSend (dispatchValue reg name data)

/-- _handle_client: decode the endpoint frame, then fully consume the
payload frame up to and including its terminator, and only then test
membership in the registry; a registered endpoint runs _run_endpoint and
its response bytes are written, an unregistered one writes nothing.  The
result carries the bytes written (none when no response was sent) and the
remaining stream. -/
def handleClient (reg : Registry) (s : ByteL) : Except PyErr (Option ByteL × ByteL) :=
  match recvClientEndpoint s with
  | .error e => .error e
  | .ok (endPoint, s1) =>
    match recvClientData s1 with
    | none => .error .eofBlocked
    | some (data, s2) =>
      if (lookupEndpoint reg endPoint).isSome then
        match runEndpoint reg endPoint data with
        | .ok out => .ok (some out, s2)
        | .error e => .error e
      else .ok (none, s2)

/-- Modelled from the spec: the client-side decode of a length-prefixed
response frame is not part of src (the spec says the client counterpart
is not reproduced server-side), so the round-trip reader is taken from
the spec words: read the 4-byte unsigned length, then take exactly that
many following bytes. -/
def decodeByLength (b : ByteL) : Option ByteL :=
  match unpackU32 (b.take 4) with
  | none => none
  | some n => if n ≤ (b.drop 4).length then some ((b.drop 4).take n) else none

/-- Split a string at its first quote character (34), returning the part
before and the part after; none when no quote occurs. -/
def splitAtQuote : PyStr → Option (PyStr × PyStr)
  | [] => none
  | c :: r =>
    if c = 34 then some ([], r)
    else
      match splitAtQuote r with
      | some (v, rest) => some (c :: v, rest)
      | none => none

/-- The opening text of the serialized error dict: brace, quoted error
key, colon, space, opening quote of the value. -/
def errHead : ByteL := [123, 34, 101, 114, 114, 111, 114, 34, 58, 32, 34]

/-- Parsing a response payload as the structured map {error: value}: match
the fixed head, read the value up to its closing quote, and require the
closing brace; returns the value bound to the error key. -/
def parseErrorValue (b : ByteL) : Option PyStr :=
  if b.take 11 = errHead then
    match splitAtQuote (b.drop 11) with
    | some (v, [125]) => some v
    | _ => none
  else none

/-- The outcome of one _handle_client call inside the connection loop, as
the loop body observes it: a normal return, a raised
bluetooth.btcommon.BluetoothError with its errno, or any other raised
exception (such as struct.error from a malformed frame). -/
inductive ReqOutcome where
  /-- _handle_client returned normally. -/
  | ok
  /-- _handle_client raised BluetoothError with this errno. -/
  | btErr (errno : Nat)
  /-- _handle_client raised an exception of any other class. -/
  | exn
deriving DecidableEq, Repr

/-- One event as seen from the head of the while loop of _handle_clients:
either the loop condition still holds and the next request produces the
given outcome, or stop() has set the running flag to false before this
check. -/
inductive ConnEvent where
  /-- The running flag is still true and _handle_client runs. -/
  | req (o : ReqOutcome)
  /-- stop() set self._running to false before this loop check. -/
  | stopCalled
deriving DecidableEq, Repr

/-- The log lines emitted by the exception arms of _handle_clients. -/
inductive LogMsg where
  /-- The errno 104 arm: Client disconnected, at info level. -/
  | clientDisconnected
  /-- The other BluetoothError arm: Unexpected client error. -/
  | unexpectedClientError
deriving DecidableEq, Repr

/-- The actions the loop body performs on the client socket. -/
inductive SockAction where
  /-- A request/response cycle touched the socket (recv and maybe send). -/
  | recvCycle
  /-- A close() call on the client socket.  _handle_clients and
  _wait_for_client contain no such call, so no model transition ever emits
  it; it exists so that statements about closing are expressible. -/
  | closeSocket
  /-- The statement client_socket = None: the reference is dropped without
  closing the socket. -/
  | dropRef
deriving DecidableEq, Repr

/-- How the while loop of _handle_clients ends. -/
inductive ConnResult where
  /-- A BluetoothError arm ran: client_socket was set to None and the next
  loop check ended the loop. -/
  | disconnected
  /-- The running flag was false at a loop check. -/
  | stoppedByFlag
  /-- A non-BluetoothError exception escaped the loop (the except clause
  catches only BluetoothError), to be caught by run(). -/
  | escaped
  /-- The event script ran out while the loop was still waiting on the
  client: the loop is blocked in recv. -/
  | blocked
deriving DecidableEq, Repr

/-- The while loop of _handle_clients over a script of events: on a normal
return it loops; on a BluetoothError it logs (Client disconnected for
errno 104, Unexpected client error otherwise), sets client_socket to None
and the loop ends; any other exception escapes the loop at once.  The
socket is never closed on any path.  Returns how the loop ended, the log
lines, and the socket actions performed. -/
def handleClientsLoop : List ConnEvent → ConnResult × List LogMsg × List SockAction
  | [] => (.blocked, [], [])
  | .stopCalled :: _ => (.stoppedByFlag, [], [])
  | .req .ok :: rest =>
    let (r, ls, acts) := handleClientsLoop rest
    (r, ls, .recvCycle :: acts)
  | .req (.btErr e) :: _ =>
    if e = 104 then (.disconnected, [.clientDisconnected], [.recvCycle, .dropRef])
    else (.disconnected, [.unexpectedClientError], [.recvCycle, .dropRef])
  | .req .exn :: _ => (.escaped, [], [.recvCycle])

/-- One event as seen from the head of the while loop of run(): either a
connection is accepted and handled to the end of its event script, or
stop() has set the running flag to false before this check. -/
inductive ServerEvent where
  /-- A connection is accepted and its loop runs over these events. -/
  | session (evs : List ConnEvent)
  /-- stop() set self._running to false before this loop check. -/
  | stopCalled
deriving DecidableEq, Repr

/-- How the accept loop of run() ends. -/
inductive RunResult where
  /-- The running flag became false: run() returned normally. -/
  | stopped
  /-- The script ran out with the loop still accepting or serving: the
  server is alive and waiting. -/
  | blocked
  /-- An exception escaped run(), terminating the thread.  No transition
  produces this: the try/except around _handle_clients catches every
  exception; it exists so the statement that the server never crashes is
  about the model and not vacuous notation. -/
  | crashed
deriving DecidableEq, Repr

/-- The while loop of run() over a script: each session runs
_handle_clients; a session that escaped is caught by the except clause of
run(), logged, and the loop continues; a session that observed the
running flag go false ends the loop, as does a stop before an accept. -/
def serverRun : List ServerEvent → RunResult
  | [] => .blocked
  | .stopCalled :: _ => .stopped
  | .session evs :: rest =>
    match (handleClientsLoop evs).1 with
    | .blocked => .blocked
    | .stoppedByFlag => .stopped
    | .disconnected => serverRun rest
    | .escaped => serverRun rest

/-- Does the script contain a stop() event anywhere, outside or inside a
session? -/
def hasStopEvent : List ServerEvent → Bool
  | [] => false
  | .stopCalled :: _ => true
  | .session evs :: rest =>
    evs.any (fun e => match e with | .stopCalled => true | .req _ => false) || hasStopEvent rest

/-- The code points of the endpoint name fail. -/
def failName : PyStr := [102, 97, 105, 108]

/-- A handler whose signature accepts the data keyword and whose body
raises an exception with an empty message, like raise Exception(). -/
def failHandler : PyCallable :=
  { acceptsKw := fun _ => true, fn := fun _ => .raise [] }

/-- A registry holding only the fail endpoint. -/
def regFail : Registry := [(failName, failHandler)]

/-- The code points of the endpoint name other. -/
def otherName : PyStr := [111, 116, 104, 101, 114]

/-- A handler that returns a value of an unsupported type (neither bytes,
str, dict nor None). -/
def otherHandler : PyCallable :=
  { acceptsKw := fun _ => true, fn := fun _ => .ret .other }

/-- A registry holding only the other endpoint. -/
def regOther : Registry := [(otherName, otherHandler)]

/-- The code points of the endpoint name echo. -/
def echoName : PyStr := [101, 99, 104, 111]

/-- A handler that returns its input bytes unchanged. -/
def echoHandler : PyCallable :=
  { acceptsKw := fun _ => true, fn := fun d => .ret (.bytes d) }

/-- A registry holding only the echo endpoint. -/
def regEcho : Registry := [(echoName, echoHandler)]

/-- A handler that raises an exception whose message is boom. -/
def boomHandler : PyCallable :=
  { acceptsKw := fun _ => true, fn := fun _ => .raise [98, 111, 111, 109] }

/-- A registry holding only the fail endpoint, bound to the boom raiser. -/
def regBoom : Registry := [(failName, boomHandler)]

/-- A handler whose signature does not accept a keyword argument named
data (for instance def handler(payload): ...). -/
def noKwHandler : PyCallable :=
  { acceptsKw := fun _ => false, fn := fun _ => .ret .none }

/-- A registry binding the echo name to the handler with the wrong
signature. -/
def regNoKw : Registry := [(echoName, noKwHandler)]

/-- A character that json.dumps leaves unescaped and that UTF-8 encodes
as itself: printable ascii other than quote and backslash. -/
def simpleChar (c : Nat) : Prop :=
  32 ≤ c ∧ c < 127 ∧ c ≠ 34 ∧ c ≠ 92

instance (c : Nat) : Decidable (simpleChar c) :=
  inferInstanceAs (Decidable (_ ∧ _ ∧ _ ∧ _))

/-! Helper lemmas shared by the claim theorems. -/

theorem packU32_length (n : Nat) : (packU32 n).length = 4 := rfl

theorem unpackU32_packU32 (n : Nat) (h : n < 4294967296) :
    unpackU32 (packU32 n) = some n := by
  simp only [packU32, unpackU32, Option.some.injEq]
  omega

theorem recvClientData_terminated (p rest : ByteL) (hp : (0 : Nat) ∉ p) :
    recvClientData (p ++ 0 :: rest) = some (p, rest) := by
  induction p with
  | nil => simp [recvClientData]
  | cons b q ih =>
    have hb : b ≠ 0 := fun h => hp (by simp [h])
    have hq : (0 : Nat) ∉ q := fun h => hp (List.mem_cons_of_mem _ h)
    simp [recvClientData, hb, ih hq]

theorem recvClientEndpoint_frame (nb rest : ByteL) (name : PyStr)
    (hdec : utf8Decode nb = some name) (hlen : nb.length < 4294967296) :
    recvClientEndpoint (packU32 nb.length ++ (nb ++ rest)) = .ok (name, rest) := by
  have h4 : (packU32 nb.length ++ (nb ++ rest)).take 4 = packU32 nb.length :=
    List.take_left' (packU32_length nb.length)
  have hdrop : (packU32 nb.length ++ (nb ++ rest)).drop 4 = nb ++ rest :=
    List.drop_left' (packU32_length nb.length)
  simp only [recvClientEndpoint, h4, unpackU32_packU32 nb.length hlen, hdrop,
    List.take_left, List.drop_left, hdec]

theorem utf8DecodeLoop_ascii (fuel : Nat) (l : ByteL) (hf : l.length ≤ fuel)
    (h : ∀ c ∈ l, c < 128) : utf8DecodeLoop fuel l = some l := by
  induction fuel generalizing l with
  | zero =>
    cases l with
    | nil => rfl
    | cons b rest => simp at hf
  | succ fuel ih =>
    cases l with
    | nil => rfl
    | cons b rest =>
      have hb : b < 128 := h b (List.mem_cons_self b rest)
      have hr : ∀ c ∈ rest, c < 128 := fun c hc => h c (List.mem_cons_of_mem _ hc)
      have h1 : utf8DecodeOne (b :: rest) = some (b, rest) := by
        simp [utf8DecodeOne, hb]
      have hf2 : rest.length ≤ fuel := by simpa using hf
      rw [utf8DecodeLoop, h1]
      show Option.map (fun t => b :: t) (utf8DecodeLoop fuel rest) = some (b :: rest)
      rw [ih rest hf2 hr]
      rfl

theorem utf8Decode_ascii (l : ByteL) (h : ∀ c ∈ l, c < 128) :
    utf8Decode l = some l :=
  utf8DecodeLoop_ascii l.length l (Nat.le_refl _) h

theorem utf8Encode_ascii (l : PyStr) (h : ∀ c ∈ l, c < 128) :
    utf8Encode l = l := by
  induction l with
  | nil => rfl
  | cons b rest ih =>
    have hb : b < 128 := h b (List.mem_cons_self b rest)
    have hr : ∀ c ∈ rest, c < 128 := fun c hc => h c (List.mem_cons_of_mem _ hc)
    have hrest := ih hr
    simp only [utf8Encode, List.map_cons, List.flatten_cons] at hrest ⊢
    rw [show utf8EncodeChar b = [b] by simp [utf8EncodeChar, hb], hrest]
    rfl

theorem jsonEscapeChar_simple (c : Nat) (h : simpleChar c) :
    jsonEscapeChar c = [c] := by
  obtain ⟨h1, h2, h3, h4⟩ := h
  simp only [jsonEscapeChar]
  rw [if_neg h3, if_neg h4, if_neg (by omega), if_neg (by omega), if_neg (by omega),
    if_neg (by omega), if_neg (by omega), if_neg (by simp; omega)]

theorem jsonQuote_simple (m : PyStr) (h : ∀ c ∈ m, simpleChar c) :
    jsonQuote m = [34] ++ m ++ [34] := by
  have : (m.map jsonEscapeChar).flatten = m := by
    induction m with
    | nil => rfl
    | cons c q ih =>
      have hc := h c (List.mem_cons_self c q)
      have hq : ∀ x ∈ q, simpleChar x := fun x hx => h x (List.mem_cons_of_mem _ hx)
      simp [jsonEscapeChar_simple c hc, ih hq]
  simp [jsonQuote, this]

theorem jsonDumps_error (m : PyStr) (h : ∀ c ∈ m, simpleChar c) :
    jsonDumps [(errKey, m)] = errHead ++ m ++ [34, 125] := by
  have hk : jsonQuote errKey = [34] ++ errKey ++ [34] :=
    jsonQuote_simple errKey (by decide)
  simp only [jsonDumps, List.map_cons, List.map_nil, joinSep]
  rw [hk, jsonQuote_simple m h]
  simp [errKey, errHead]

theorem jsonDumps_error_ascii (m : PyStr) (h : ∀ c ∈ m, simpleChar c) :
    ∀ c ∈ jsonDumps [(errKey, m)], c < 128 := by
  rw [jsonDumps_error m h]
  intro c hc
  have hhead : ∀ x ∈ errHead, x < 128 := by decide
  have htail : ∀ x ∈ [(34 : Nat), 125], x < 128 := by decide
  rcases List.mem_append.1 hc with hc | hc
  · rcases List.mem_append.1 hc with hc | hc
    · exact hhead c hc
    · exact (h c hc).2.1.trans (by omega)
  · exact htail c hc

theorem errorPayload_eq (m : PyStr) (h : ∀ c ∈ m, simpleChar c) :
    utf8Encode (jsonDumps [(errKey, m)]) = errHead ++ m ++ [34, 125] := by
  rw [utf8Encode_ascii _ (jsonDumps_error_ascii m h), jsonDumps_error m h]

theorem splitAtQuote_terminated (m r : PyStr) (hm : (34 : Nat) ∉ m) :
    splitAtQuote (m ++ 34 :: r) = some (m, r) := by
  induction m with
  | nil => simp [splitAtQuote]
  | cons c q ih =>
    have hc : c ≠ 34 := fun h => hm (by simp [h])
    have hq : (34 : Nat) ∉ q := fun h => hm (List.mem_cons_of_mem _ h)
    simp [splitAtQuote, hc, ih hq]

theorem parseErrorValue_payload (m : PyStr) (h : ∀ c ∈ m, simpleChar c) :
    parseErrorValue (errHead ++ m ++ [34, 125]) = some m := by
  have h11 : (errHead ++ (m ++ [34, 125])).take 11 = errHead :=
    List.take_left' (by decide)
  have hdrop : (errHead ++ (m ++ [34, 125])).drop 11 = m ++ [34, 125] :=
    List.drop_left' (by decide)
  have hm : (34 : Nat) ∉ m := fun hmem => (h 34 hmem).2.2.1 rfl
  have hsplit : splitAtQuote (m ++ [34, 125]) = some (m, [125]) :=
    splitAtQuote_terminated m [125] hm
  simp only [parseErrorValue, List.append_assoc, h11, hdrop, hsplit, if_true]

theorem lookupEndpoint_mem_keys (reg : Registry) (n : PyStr) (cb : PyCallable)
    (h : lookupEndpoint reg n = some cb) : n ∈ registryKeys reg := by
  induction reg with
  | nil => simp [lookupEndpoint] at h
  | cons kv rest ih =>
    obtain ⟨k, v⟩ := kv
    by_cases hk : k = n
    · simp [registryKeys, hk]
    · simp only [lookupEndpoint, if_neg hk] at h
      simp [registryKeys]
      right
      have := ih h
      simpa [registryKeys] using this

theorem lookupEndpoint_append_self (reg : Registry) (n : PyStr) (cb : PyCallable)
    (h : n ∉ registryKeys reg) : lookupEndpoint (reg ++ [(n, cb)]) n = some cb := by
  induction reg with
  | nil => simp [lookupEndpoint]
  | cons kv rest ih =>
    obtain ⟨k, v⟩ := kv
    have hk : k ≠ n := by
      intro hkn
      exact h (by simp [registryKeys, hkn])
    have hr : n ∉ registryKeys rest := fun hm => h (by simp [registryKeys] at hm ⊢; right; exact hm)
    simp only [List.cons_append, lookupEndpoint, if_neg hk]
    exact ih hr

theorem lookupEndpoint_append_other (reg : Registry) (n m : PyStr) (cb : PyCallable)
    (h : m ≠ n) : lookupEndpoint (reg ++ [(n, cb)]) m = lookupEndpoint reg m := by
  induction reg with
  | nil =>
    simp only [List.nil_append, lookupEndpoint]
    rw [if_neg (fun hn => h hn.symm)]
  | cons kv rest ih =>
    obtain ⟨k, v⟩ := kv
    by_cases hk : k = m
    · simp [lookupEndpoint, hk]
    · simp only [List.cons_append, lookupEndpoint, if_neg hk]
      exact ih

/-- C1: decoding the payload from a stream whose bytes are a NUL-free
block followed by the 0x00 terminator returns exactly the block, without
the terminator, and leaves the stream just past the terminator; with an
empty block (stream beginning with 0x00) it returns the empty byte
string. -/
theorem decode_payload_reads_until_first_nul (p rest : ByteL) (hp : (0 : Nat) ∉ p) :
    recvClientData (p ++ 0 :: rest) = some (p, rest) :=
  recvClientData_terminated p rest hp

theorem decode_payload_reads_until_first_nul_witness :
    recvClientData ([104, 101, 108, 108, 111] ++ 0 :: [1, 2]) =
      some ([104, 101, 108, 108, 111], [1, 2])
    ∧ recvClientData ([] ++ 0 :: [5, 6]) = some ([], [5, 6]) :=
  ⟨decode_payload_reads_until_first_nul [104, 101, 108, 108, 111] [1, 2] (by decide),
   decode_payload_reads_until_first_nul [] [5, 6] (by decide)⟩

/-- C2: encoding a response produces exactly a 4-byte unsigned length
followed by the payload bytes with no terminator; a None payload encodes
as the zero-length response; and decoding by the encoded length recovers
the payload exactly. -/
theorem encode_response_length_prefixed (p : ByteL) (h : p.length < 4294967296) :
    sendClientResponse (some p) = .ok (packU32 p.length ++ p)
    ∧ (packU32 p.length).length = 4
    ∧ unpackU32 (packU32 p.length) = some p.length
    ∧ sendClientResponse none = .ok [0, 0, 0, 0]
    ∧ decodeByLength (packU32 p.length ++ p) = some p := by
  refine ⟨by simp [sendClientResponse, h], rfl, unpackU32_packU32 _ h, rfl, ?_⟩
  have h4 : (packU32 p.length ++ p).take 4 = packU32 p.length := List.take_left' rfl
  have hd : (packU32 p.length ++ p).drop 4 = p := List.drop_left' rfl
  simp [decodeByLength, h4, hd, unpackU32_packU32 _ h, List.take_length]

theorem encode_response_length_prefixed_witness :
    sendClientResponse (some [7, 8, 9]) = .ok (packU32 3 ++ [7, 8, 9])
    ∧ decodeByLength (packU32 3 ++ [7, 8, 9]) = some [7, 8, 9]
    ∧ decodeByLength (packU32 0 ++ []) = some []
    ∧ decodeByLength (packU32 1 ++ [255]) = some [255] := by
  have h3 := encode_response_length_prefixed [7, 8, 9] (by decide)
  have h0 := encode_response_length_prefixed [] (by decide)
  have h1 := encode_response_length_prefixed [255] (by decide)
  exact ⟨h3.1, h3.2.2.2.2, h0.2.2.2.2, h1.2.2.2.2⟩

/-- C5: registering a handler under a name already present raises
EndpointExistsError and leaves the registry unchanged, with the first
registration still active; registering under a fresh name inserts exactly
that one entry and changes no other lookup. -/
theorem register_endpoint_duplicate_and_fresh :
    (∀ (reg : Registry) (n : PyStr) (cb : PyCallable), n ∈ registryKeys reg →
      registerEndpoint reg n cb = .error .endpointExists)
    ∧ (∀ (reg : Registry) (n : PyStr) (cb cb0 : PyCallable), lookupEndpoint reg n = some cb0 →
      registryAfterRegister reg n cb = reg
      ∧ lookupEndpoint (registryAfterRegister reg n cb) n = some cb0)
    ∧ (∀ (reg : Registry) (n : PyStr) (cb : PyCallable), n ∉ registryKeys reg →
      registerEndpoint reg n cb = .ok (reg ++ [(n, cb)])
      ∧ lookupEndpoint (reg ++ [(n, cb)]) n = some cb
      ∧ ∀ m, m ≠ n → lookupEndpoint (reg ++ [(n, cb)]) m = lookupEndpoint reg m) := by
  refine ⟨?_, ?_, ?_⟩
  · intro reg n cb hm
    simp [registerEndpoint, hm]
  · intro reg n cb cb0 hl
    have hm : n ∈ registryKeys reg := lookupEndpoint_mem_keys reg n cb0 hl
    have : registryAfterRegister reg n cb = reg := by
      simp [registryAfterRegister, registerEndpoint, hm]
    exact ⟨this, by rw [this]; exact hl⟩
  · intro reg n cb hm
    exact ⟨by simp [registerEndpoint, hm],
      lookupEndpoint_append_self reg n cb hm,
      fun m hmn => lookupEndpoint_append_other reg n m cb hmn⟩

theorem register_endpoint_duplicate_and_fresh_witness :
    registerEndpoint regEcho echoName failHandler = .error .endpointExists
    ∧ registryAfterRegister regEcho echoName failHandler = regEcho
    ∧ lookupEndpoint (registryAfterRegister regEcho echoName failHandler) echoName =
      some echoHandler
    ∧ registerEndpoint [] echoName echoHandler = .ok regEcho := by
  have hd := register_endpoint_duplicate_and_fresh
  refine ⟨hd.1 regEcho echoName failHandler (by decide), ?_, ?_, ?_⟩
  · exact (hd.2.1 regEcho echoName failHandler echoHandler rfl).1
  · exact (hd.2.1 regEcho echoName failHandler echoHandler rfl).2
  · exact (hd.2.2 [] echoName echoHandler (by decide)).1

theorem runEndpoint_error_dict (reg : Registry) (name : PyStr) (data : ByteL) (m : PyStr)
    (hv : dispatchValue reg name data = .dict [(errKey, m)])
    (hs : ∀ c ∈ m, simpleChar c)
    (hlen : m.length + 13 < 4294967296) :
    runEndpoint reg name data = .ok (packU32 (m.length + 13) ++ (errHead ++ m ++ [34, 125])) := by
  have hpay := errorPayload_eq m hs
  have hplen : (errHead ++ m ++ [34, 125]).length = m.length + 13 := by
    simp [errHead]
  rw [runEndpoint, hv]
  simp only [normalizeAndSend, hpay, sendClientResponse]
  rw [hplen, if_pos hlen]

/-- C3 counterexample: a handler raising an exception with an empty
message, such as raise Exception(), yields a response whose structured
map binds the error key to the EMPTY string, refuting the claim that the
value is always non-empty. -/
theorem handler_error_empty_message_counterexample :
    runEndpoint regFail failName [] = .ok (packU32 13 ++ (errHead ++ [34, 125]))
    ∧ parseErrorValue (errHead ++ [34, 125]) = some [] :=
  ⟨rfl, rfl⟩

/-- C3 amended: a handler exception is caught at the dispatch boundary
and never propagates (the result is a normally returned response, not an
error); the client receives a response frame whose payload parses as the
structured map binding the error key to the message of the exception —
which is non-empty exactly when that message is, and in particular empty
for an exception with an empty message. -/
theorem handler_error_structured_response (reg : Registry) (name : PyStr) (h : PyCallable)
    (data : ByteL) (m : PyStr)
    (hl : lookupEndpoint reg name = some h)
    (hk : h.acceptsKw dataKw = true)
    (hf : h.fn data = .raise m)
    (hs : ∀ c ∈ m, simpleChar c)
    (hlen : m.length + 13 < 4294967296) :
    runEndpoint reg name data = .ok (packU32 (m.length + 13) ++ (errHead ++ m ++ [34, 125]))
    ∧ parseErrorValue (errHead ++ m ++ [34, 125]) = some m := by
  have hv : dispatchValue reg name data = .dict [(errKey, m)] := by
    simp [dispatchValue, hl, callWithKw, hk, hf]
  exact ⟨runEndpoint_error_dict reg name data m hv hs hlen, parseErrorValue_payload m hs⟩

theorem handler_error_structured_response_witness :
    runEndpoint regBoom failName [] =
      .ok (packU32 17 ++ (errHead ++ [98, 111, 111, 109] ++ [34, 125]))
    ∧ parseErrorValue (errHead ++ [98, 111, 111, 109] ++ [34, 125]) =
      some [98, 111, 111, 109] :=
  handler_error_structured_response regBoom failName boomHandler [] [98, 111, 111, 109]
    rfl rfl rfl (by decide) (by decide)

/-- C10: dispatch invokes the handler with the payload bound to the
single keyword argument data; a handler whose signature does not accept a
keyword named data therefore raises at invocation, and that failure
follows the handler-error path: the client gets a response whose
structured map binds the error key to the non-empty TypeError message,
and no exception escapes the dispatch; when the signature does accept the
keyword, the handler runs on the payload and its return value is
normalized as usual. -/
theorem dispatch_uses_data_keyword (reg : Registry) (name : PyStr) (h : PyCallable)
    (data : ByteL) (hl : lookupEndpoint reg name = some h) :
    (h.acceptsKw dataKw = false →
      runEndpoint reg name data =
        .ok (packU32 ((unexpectedKwMsg dataKw).length + 13) ++
          (errHead ++ unexpectedKwMsg dataKw ++ [34, 125]))
      ∧ parseErrorValue (errHead ++ unexpectedKwMsg dataKw ++ [34, 125]) =
        some (unexpectedKwMsg dataKw)
      ∧ unexpectedKwMsg dataKw ≠ [])
    ∧ (h.acceptsKw dataKw = true →
      runEndpoint reg name data = normalizeAndSend (match h.fn data with
        | .ret v => v
        | .raise m => .dict [(errKey, m)])) := by
  constructor
  · intro hk
    have hv : dispatchValue reg name data = .dict [(errKey, unexpectedKwMsg dataKw)] := by
      simp [dispatchValue, hl, callWithKw, hk]
    refine ⟨runEndpoint_error_dict reg name data _ hv (by decide) (by decide),
      parseErrorValue_payload _ (by decide), by decide⟩
  · intro hk
    simp [runEndpoint, dispatchValue, hl, callWithKw, hk]

theorem dispatch_uses_data_keyword_witness :
    runEndpoint regNoKw echoName [1, 2] =
      .ok (packU32 ((unexpectedKwMsg dataKw).length + 13) ++
        (errHead ++ unexpectedKwMsg dataKw ++ [34, 125]))
    ∧ parseErrorValue (errHead ++ unexpectedKwMsg dataKw ++ [34, 125]) =
      some (unexpectedKwMsg dataKw)
    ∧ unexpectedKwMsg dataKw ≠ [] :=
  (dispatch_uses_data_keyword regNoKw echoName noKwHandler [1, 2] rfl).1 rfl

theorem unpackU32_short (s : ByteL) (h : s.length < 4) : unpackU32 s = none := by
  match s with
  | [] => rfl
  | [_] => rfl
  | [_, _] => rfl
  | [_, _, _] => rfl
  | _ :: _ :: _ :: _ :: _ => simp at h; omega

/-- C4: a request naming an endpoint that is not in the registry produces
no response bytes at all (the bytes-written component is none), the
handler returns normally to await the next request (the result is ok, not
an error), and the payload frame has been fully consumed through its
terminator before the lookup: the remaining stream starts right after the
terminator. -/
theorem unknown_endpoint_no_response (reg : Registry) (nb p rest : ByteL) (name : PyStr)
    (hdec : utf8Decode nb = some name)
    (hlen : nb.length < 4294967296)
    (hmiss : lookupEndpoint reg name = none)
    (hp : (0 : Nat) ∉ p) :
    handleClient reg (packU32 nb.length ++ (nb ++ (p ++ 0 :: rest))) = .ok (none, rest) := by
  rw [handleClient, recvClientEndpoint_frame nb (p ++ 0 :: rest) name hdec hlen]
  simp only [recvClientData_terminated p rest hp, hmiss, Option.isSome_none, Bool.false_eq_true,
    if_false]

theorem unknown_endpoint_no_response_witness :
    handleClient regFail
      (packU32 4 ++ ([101, 99, 104, 111] ++ ([112, 105, 110, 103] ++ 0 :: []))) =
      .ok (none, []) :=
  unknown_endpoint_no_response regFail [101, 99, 104, 111] [112, 105, 110, 103] []
    [101, 99, 104, 111] (by decide) (by decide) rfl (by decide)

/-- C6 counterexample: no FramingError exists in the code.  A stream
shorter than 4 bytes makes struct.unpack raise struct.error, not
FramingError; a stream that closes before the declared name length is
satisfied is accepted SILENTLY, returning the truncated name instead of
failing; and invalid UTF-8 raises UnicodeDecodeError, not FramingError. -/
theorem decode_endpoint_no_framing_error_counterexample :
    recvClientEndpoint [1, 0, 0] = .error .structError
    ∧ recvClientEndpoint ([5, 0, 0, 0] ++ [97, 98]) = .ok ([97, 98], [])
    ∧ recvClientEndpoint ([1, 0, 0, 0] ++ [255]) = .error .unicodeDecodeError
    ∧ PyErr.structError ≠ PyErr.framingError
    ∧ PyErr.unicodeDecodeError ≠ PyErr.framingError :=
  ⟨rfl, rfl, rfl, by decide, by decide⟩

/-- C6 amended: decoding an endpoint name reads 4 bytes and interprets
them as an unsigned 32-bit length, then reads up to that many bytes and
decodes them as UTF-8; a well-formed frame yields the name and the
remaining stream.  If the stream closes inside the 4 length bytes,
struct.unpack raises struct.error (not FramingError); if it closes before
the declared name length is satisfied, the truncated bytes are decoded
without any error; bytes that are not valid UTF-8 raise
UnicodeDecodeError (not FramingError). -/
theorem decode_endpoint_amended :
    (∀ (nb rest : ByteL) (name : PyStr), utf8Decode nb = some name →
      nb.length < 4294967296 →
      recvClientEndpoint (packU32 nb.length ++ (nb ++ rest)) = .ok (name, rest))
    ∧ (∀ s : ByteL, s.length < 4 → recvClientEndpoint s = .error .structError)
    ∧ (∀ (len : Nat) (short : ByteL) (name : PyStr), len < 4294967296 →
      short.length ≤ len → utf8Decode short = some name →
      recvClientEndpoint (packU32 len ++ short) = .ok (name, []))
    ∧ (∀ (len : Nat) (rest : ByteL), len < 4294967296 →
      utf8Decode (rest.take len) = none →
      recvClientEndpoint (packU32 len ++ rest) = .error .unicodeDecodeError) := by
  refine ⟨fun nb rest name hdec hlen => recvClientEndpoint_frame nb rest name hdec hlen,
    ?_, ?_, ?_⟩
  · intro s hs
    have ht : s.take 4 = s := List.take_of_length_le (Nat.le_of_lt hs)
    rw [recvClientEndpoint, ht, unpackU32_short s hs]
  · intro len short name hlen hsh hdec
    have h4 : (packU32 len ++ short).take 4 = packU32 len := List.take_left' rfl
    have hd : (packU32 len ++ short).drop 4 = short := List.drop_left' rfl
    simp only [recvClientEndpoint, h4, unpackU32_packU32 len hlen, hd,
      List.take_of_length_le hsh, hdec, List.drop_eq_nil_of_le hsh]
  · intro len rest hlen hdec
    have h4 : (packU32 len ++ rest).take 4 = packU32 len := List.take_left' rfl
    have hd : (packU32 len ++ rest).drop 4 = rest := List.drop_left' rfl
    simp only [recvClientEndpoint, h4, unpackU32_packU32 len hlen, hd, hdec]

theorem decode_endpoint_amended_witness :
    recvClientEndpoint (packU32 4 ++ ([101, 99, 104, 111] ++ [9])) =
      .ok ([101, 99, 104, 111], [9])
    ∧ recvClientEndpoint [7, 7] = .error .structError
    ∧ recvClientEndpoint (packU32 9 ++ [104, 105]) = .ok ([104, 105], [])
    ∧ recvClientEndpoint (packU32 1 ++ [200, 3]) = .error .unicodeDecodeError := by
  have h := decode_endpoint_amended
  exact ⟨h.1 [101, 99, 104, 111] [9] [101, 99, 104, 111] (by decide) (by decide),
    h.2.1 [7, 7] (by decide),
    h.2.2.1 9 [104, 105] [104, 105] (by decide) (by decide) (by decide),
    h.2.2.2 1 [200, 3] (by decide) (by decide)⟩

/-- C7 counterexample: a handler returning a value of an unsupported type
makes len() inside _send_client_response raise TypeError, which escapes
_run_endpoint uncaught: no UnsupportedResponseTypeError exists in the
code (the raised error differs from it), and no substituted error
response is written. -/
theorem unsupported_return_type_counterexample :
    runEndpoint regOther otherName [] = .error .typeError
    ∧ (Except.error PyErr.typeError : Except PyErr ByteL) ≠ .error .unsupportedResponseType :=
  ⟨rfl, fun h => absurd (Except.error.inj h) (by decide)⟩

/-- C7 amended: a handler return value of an unsupported type (neither
bytes, str, dict nor None) is not caught at the dispatch boundary: the
TypeError from len() in _send_client_response propagates out of
_run_endpoint, so no response is written and no
UnsupportedResponseTypeError (a class the code does not define) is
involved; the connection is then abandoned by the per-client loop while
the accept loop continues. -/
theorem unsupported_return_type_propagates (reg : Registry) (name : PyStr) (h : PyCallable)
    (data : ByteL)
    (hl : lookupEndpoint reg name = some h)
    (hk : h.acceptsKw dataKw = true)
    (hf : h.fn data = .ret .other) :
    runEndpoint reg name data = .error .typeError := by
  simp [runEndpoint, dispatchValue, hl, callWithKw, hk, hf, normalizeAndSend]

theorem unsupported_return_type_propagates_witness :
    runEndpoint regOther otherName [3] = .error .typeError :=
  unsupported_return_type_propagates regOther otherName otherHandler [3] rfl rfl rfl

theorem handleClientsLoop_no_stop (evs : List ConnEvent)
    (h : evs.any (fun e => match e with | .stopCalled => true | .req _ => false) = false) :
    (handleClientsLoop evs).1 ≠ .stoppedByFlag := by
  induction evs with
  | nil => simp [handleClientsLoop]
  | cons ev rest ih =>
    cases ev with
    | stopCalled => simp at h
    | req o =>
      have hr : rest.any (fun e => match e with | .stopCalled => true | .req _ => false) = false := by
        simpa using h
      cases o with
      | ok =>
        simp only [handleClientsLoop]
        exact ih hr
      | btErr e =>
        by_cases he : e = 104 <;> simp [handleClientsLoop, he]
      | exn => simp [handleClientsLoop]

/-- C8: in the loop model of run() and _handle_clients, no sequence of
client traffic terminates the server: the run loop never crashes (every
exception that escapes one connection is caught and the next connection
is accepted); a BluetoothError with errno 104 is handled as a normal,
logged disconnect that ends only that connection (any other errno is
logged as unexpected, still ending only that connection); a session that
ends by disconnect or by an escaped exception is followed by the accept
loop continuing with the remaining script; and the loop ends with result
stopped only when a stop() event occurs, and always does at a stop()
event. -/
theorem server_loop_never_crashes :
    (∀ script : List ServerEvent, serverRun script ≠ .crashed)
    ∧ (∀ evs : List ConnEvent, handleClientsLoop (.req (.btErr 104) :: evs) =
      (.disconnected, [.clientDisconnected], [.recvCycle, .dropRef]))
    ∧ (∀ (e : Nat) (evs : List ConnEvent), e ≠ 104 →
      handleClientsLoop (.req (.btErr e) :: evs) =
      (.disconnected, [.unexpectedClientError], [.recvCycle, .dropRef]))
    ∧ (∀ (evs : List ConnEvent) (rest : List ServerEvent),
      (handleClientsLoop evs).1 = .disconnected ∨ (handleClientsLoop evs).1 = .escaped →
      serverRun (.session evs :: rest) = serverRun rest)
    ∧ (∀ script : List ServerEvent, hasStopEvent script = false → serverRun script ≠ .stopped)
    ∧ (∀ rest : List ServerEvent, serverRun (.stopCalled :: rest) = .stopped) := by
  refine ⟨?_, ?_, ?_, ?_, ?_, fun rest => rfl⟩
  · intro script
    induction script with
    | nil => simp [serverRun]
    | cons ev rest ih =>
      cases ev with
      | stopCalled => simp [serverRun]
      | session evs =>
        rw [serverRun]
        rcases hc : (handleClientsLoop evs).1 <;> simp_all
  · intro evs
    simp [handleClientsLoop]
  · intro e evs he
    simp [handleClientsLoop, he]
  · intro evs rest hor
    rw [serverRun]
    rcases hor with hc | hc <;> rw [hc]
  · intro script
    induction script with
    | nil => simp [serverRun]
    | cons ev rest ih =>
      intro hns
      cases ev with
      | stopCalled => simp [hasStopEvent] at hns
      | session evs =>
        have h2 : evs.any (fun e => match e with | .stopCalled => true | .req _ => false) = false
            ∧ hasStopEvent rest = false := by
          simpa [hasStopEvent] using hns
        rw [serverRun]
        rcases hc : (handleClientsLoop evs).1
        · exact ih h2.2
        · exact absurd hc (handleClientsLoop_no_stop evs h2.1)
        · exact ih h2.2
        · simp

theorem server_loop_never_crashes_witness :
    handleClientsLoop [ConnEvent.req (.btErr 7)] =
      (.disconnected, [.unexpectedClientError], [.recvCycle, .dropRef])
    ∧ serverRun [ServerEvent.session [ConnEvent.req (.btErr 104)], ServerEvent.stopCalled] =
      .stopped := by
  have h := server_loop_never_crashes
  refine ⟨h.2.2.1 7 [] (by decide), ?_⟩
  have h1 : (handleClientsLoop [ConnEvent.req (.btErr 104)]).1 = .disconnected := by decide
  rw [h.2.2.2.1 [ConnEvent.req (.btErr 104)] [ServerEvent.stopCalled] (Or.inl h1)]
  exact h.2.2.2.2.2 []

/-- C9 counterexample: over the lifetime of a connection that ends in a
peer reset (BluetoothError errno 104), the connection-handling loop
performs zero close() calls on the client socket — it only logs and drops
the reference — refuting the claim that every accepted connection is
closed exactly once. -/
theorem connection_never_closed_counterexample :
    handleClientsLoop [ConnEvent.req (.btErr 104)] =
      (.disconnected, [.clientDisconnected], [.recvCycle, .dropRef])
    ∧ [SockAction.recvCycle, SockAction.dropRef].count SockAction.closeSocket = 0 :=
  ⟨by decide, by decide⟩

/-- C9 amended: the connection-handling loop never closes the client
socket on any path — clean disconnect, I/O error or shutdown all at most
drop the reference (client_socket = None) and leave closing to garbage
collection; no close action ever appears in the socket-action trace. -/
theorem connection_never_closed (evs : List ConnEvent) :
    SockAction.closeSocket ∉ (handleClientsLoop evs).2.2 := by
  induction evs with
  | nil => simp [handleClientsLoop]
  | cons ev rest ih =>
    cases ev with
    | stopCalled => simp [handleClientsLoop]
    | req o =>
      cases o with
      | ok =>
        simp only [handleClientsLoop, List.mem_cons]
        rintro (hc | hc)
        · exact absurd hc (by decide)
        · exact ih hc
      | btErr e =>
        by_cases he : e = 104 <;> simp [handleClientsLoop, he]
      | exn => simp [handleClientsLoop]
